import Mathlib

/-!
Verification development for the `panoptic_mapping` map-evaluation engine
(`panoptic_mapping_utils/src/evaluation/map_evaluator.cpp`).

The definitions below shallowly embed the evaluator's algorithms.  Machine
floating-point values are modelled as rationals (`ℚ`) for the purely
order/equality-based passes, and as reals (`ℝ`) where the code applies
`sqrt` or where continuity is at stake.  The volumetric-map distance lookup
and the k-nearest-neighbour search are external collaborators; they are
modelled as oracles whose results are inputs to the embedded passes.
-/

/-- The fields of `MapEvaluator::EvaluationRequest` (map_evaluator.h) that the
error passes read.  `maximum_distance` and `inlier_distance` are the float
thresholds, the two booleans are the flags consulted by
`computeReconstructionError` and `computeMeshError`. -/
structure EvaluationRequest where
  maximum_distance : ℚ
  inlier_distance : ℚ
  ignore_truncated_points : Bool
  is_single_tsdf : Bool
deriving DecidableEq

/-- The accumulator state of `MapEvaluator::computeReconstructionError`
(map_evaluator.cpp lines 231-235): the four counters and the retained
`abserror` sample vector. -/
structure ReconstructionStats where
  total_points : ℕ
  unknown_points : ℕ
  truncated_points : ℕ
  inliers : ℕ
  abserror : List ℚ
deriving DecidableEq

/-- One loop iteration of `computeReconstructionError` (lines 250-289,
progress bar aside).  `lookup` is the distance-oracle result for the current
ground-truth point: `none` when `observed` is false, `some distance`
otherwise.  `request` is the function argument; `stored` is the member
`request_`, which line 277 reads for the inlier test. -/
def reconStep (request stored : EvaluationRequest) (s : ReconstructionStats)
    (lookup : Option ℚ) : ReconstructionStats :=
  let s1 := { s with total_points := s.total_points + 1 }
  match lookup with
  | none => { s1 with unknown_points := s1.unknown_points + 1 }
  | some distance =>
      let s2 :=
        if |distance| > request.maximum_distance then
          let st := { s1 with truncated_points := s1.truncated_points + 1 }
          if request.ignore_truncated_points then st
          else { st with abserror := st.abserror ++ [request.maximum_distance] }
        else { s1 with abserror := s1.abserror ++ [|distance|] }
      if |distance| ≤ stored.inlier_distance then { s2 with inliers := s2.inliers + 1 }
      else s2

/-- `MapEvaluator::computeReconstructionError` as a fold of `reconStep` over
the oracle results for the ground-truth points, starting from all-zero
counters and an empty sample vector. -/
def computeReconstructionError (request stored : EvaluationRequest)
    (lookups : List (Option ℚ)) : ReconstructionStats :=
  lookups.foldl (reconStep request stored) ⟨0, 0, 0, 0, []⟩

/-- Closed form of `reconStep` on an observed point. -/
lemma reconStep_some (request stored : EvaluationRequest)
    (s : ReconstructionStats) (d : ℚ) :
    reconStep request stored s (some d) =
      { total_points := s.total_points + 1
        unknown_points := s.unknown_points
        truncated_points :=
          s.truncated_points + (if |d| > request.maximum_distance then 1 else 0)
        inliers := s.inliers + (if |d| ≤ stored.inlier_distance then 1 else 0)
        abserror := s.abserror ++
          (if |d| > request.maximum_distance then
            (if request.ignore_truncated_points then [] else [request.maximum_distance])
           else [|d|]) } := by
  simp only [reconStep]
  split_ifs <;> simp_all

/-- Closed form of `reconStep` on an unobserved point. -/
lemma reconStep_none (request stored : EvaluationRequest)
    (s : ReconstructionStats) :
    reconStep request stored s none =
      { s with total_points := s.total_points + 1
               unknown_points := s.unknown_points + 1 } := rfl

/-- Appending one more oracle result folds `reconStep` once more. -/
lemma computeReconstructionError_append (request stored : EvaluationRequest)
    (qs : List (Option ℚ)) (q : Option ℚ) :
    computeReconstructionError request stored (qs ++ [q]) =
      reconStep request stored (computeReconstructionError request stored qs) q := by
  simp [computeReconstructionError, List.foldl_append]

/-- C1: in the reconstruction error pass, an observed ground-truth point whose
raw absolute distance exceeds `maximum_distance` increments
`truncated_points`, and its contribution to the error sample set is exactly
`maximum_distance` when `ignore_truncated_points` is false and nothing when
the flag is true. -/
theorem recon_truncation_policy (request stored : EvaluationRequest)
    (qs : List (Option ℚ)) (d : ℚ) (h : |d| > request.maximum_distance) :
    (computeReconstructionError request stored (qs ++ [some d])).truncated_points =
      (computeReconstructionError request stored qs).truncated_points + 1 ∧
    (computeReconstructionError request stored (qs ++ [some d])).abserror =
      (computeReconstructionError request stored qs).abserror ++
        (if request.ignore_truncated_points then [] else [request.maximum_distance]) := by
  rw [computeReconstructionError_append, reconStep_some]
  constructor
  · simp [if_pos h]
  · simp [if_pos h]

/-- Witness for C1: with `maximum_distance = 1`, `ignore_truncated_points`
false, and a single observed point at raw distance `2`, the run records one
truncated point and the sample set `[1]`. -/
theorem recon_truncation_policy_witness :
    (computeReconstructionError ⟨1, 1, false, false⟩ ⟨1, 1, false, false⟩
        ([] ++ [some 2])).truncated_points =
      (computeReconstructionError ⟨1, 1, false, false⟩ ⟨1, 1, false, false⟩
        []).truncated_points + 1 ∧
    (computeReconstructionError ⟨1, 1, false, false⟩ ⟨1, 1, false, false⟩
        ([] ++ [some 2])).abserror =
      (computeReconstructionError ⟨1, 1, false, false⟩ ⟨1, 1, false, false⟩ []).abserror ++
        (if (⟨1, 1, false, false⟩ : EvaluationRequest).ignore_truncated_points then []
         else [(⟨1, 1, false, false⟩ : EvaluationRequest).maximum_distance]) :=
  recon_truncation_policy ⟨1, 1, false, false⟩ ⟨1, 1, false, false⟩ [] 2 (by norm_num)

/-- Step invariant for C2: with identical thresholds and oracle results, the
run with `ignore_truncated_points = true` keeps the same truncation count and
at most as many samples as the run with the flag false. -/
lemma recon_ignore_invariant (request stored : EvaluationRequest)
    (qs : List (Option ℚ)) :
    ∀ s₁ s₂ : ReconstructionStats,
      s₁.truncated_points = s₂.truncated_points →
      s₁.abserror.length ≤ s₂.abserror.length →
      (qs.foldl (reconStep { request with ignore_truncated_points := true } stored) s₁).truncated_points =
        (qs.foldl (reconStep { request with ignore_truncated_points := false } stored) s₂).truncated_points ∧
      (qs.foldl (reconStep { request with ignore_truncated_points := true } stored) s₁).abserror.length ≤
        (qs.foldl (reconStep { request with ignore_truncated_points := false } stored) s₂).abserror.length := by
  induction qs with
  | nil => intro s₁ s₂ h1 h2; exact ⟨h1, h2⟩
  | cons q rest ih =>
      intro s₁ s₂ h1 h2
      simp only [List.foldl_cons]
      apply ih
      · cases q with
        | none => simp [reconStep_none, h1]
        | some d => simp [reconStep_some, h1]
      · cases q with
        | none => simp [reconStep_none, h2]
        | some d =>
            simp only [reconStep_some, List.length_append]
            split_ifs <;> simp <;> omega

/-- C2: on the same oracle results, the run with `ignore_truncated_points`
true produces a sample set no larger than the run with the flag false, while
the `truncated_points` counter is identical in both runs. -/
theorem recon_ignore_flag_relation (request stored : EvaluationRequest)
    (qs : List (Option ℚ)) :
    (computeReconstructionError { request with ignore_truncated_points := true }
        stored qs).abserror.length ≤
      (computeReconstructionError { request with ignore_truncated_points := false }
        stored qs).abserror.length ∧
    (computeReconstructionError { request with ignore_truncated_points := true }
        stored qs).truncated_points =
      (computeReconstructionError { request with ignore_truncated_points := false }
        stored qs).truncated_points := by
  have h := recon_ignore_invariant request stored qs ⟨0, 0, 0, 0, []⟩ ⟨0, 0, 0, 0, []⟩
    rfl le_rfl
  exact ⟨h.2, h.1⟩

/-- C4: in the reconstruction error pass the inlier counter is incremented
exactly when the raw absolute distance satisfies `|d| ≤ inlier_distance`,
independently of truncation; and with `inlier_distance = 2 >
maximum_distance = 1` a point at raw distance `3/2` is counted both as
truncated and as an inlier. -/
theorem recon_inlier_raw_distance :
    (∀ (request stored : EvaluationRequest) (qs : List (Option ℚ)) (d : ℚ),
      (computeReconstructionError request stored (qs ++ [some d])).inliers =
        (computeReconstructionError request stored qs).inliers +
          (if |d| ≤ stored.inlier_distance then 1 else 0)) ∧
    (computeReconstructionError ⟨1, 2, false, false⟩ ⟨1, 2, false, false⟩
        [some (3/2)]).truncated_points = 1 ∧
    (computeReconstructionError ⟨1, 2, false, false⟩ ⟨1, 2, false, false⟩
        [some (3/2)]).inliers = 1 := by
  refine ⟨fun request stored qs d => ?_, ?_, ?_⟩
  · rw [computeReconstructionError_append, reconStep_some]
  · rw [show ([some (3 / 2 : ℚ)] : List (Option ℚ)) = [] ++ [some (3 / 2)] from rfl,
      computeReconstructionError_append, reconStep_some]
    have habs : |(3 / 2 : ℚ)| = 3 / 2 := abs_of_pos (by norm_num)
    norm_num [habs, computeReconstructionError]
  · rw [show ([some (3 / 2 : ℚ)] : List (Option ℚ)) = [] ++ [some (3 / 2)] from rfl,
      computeReconstructionError_append, reconStep_some]
    have habs : |(3 / 2 : ℚ)| = 3 / 2 := abs_of_pos (by norm_num)
    norm_num [habs, computeReconstructionError]

/-- Semantic label of a submap (`PanopticLabel` in the map library); the mesh
error pass only tests for `kFreeSpace`. -/
inductive PanopticLabel
  | kUnknown
  | kInstance
  | kBackground
  | kFreeSpace
deriving DecidableEq

/-- Temporal change state of a submap (`ChangeState` in the map library). -/
inductive ChangeState
  | kNew
  | kMatched
  | kUnobserved
  | kAbsent
  | kPersistent
deriving DecidableEq

/-- A submap as seen by `MapEvaluator::computeMeshError` (lines 334-373):
its label, its change state, and one k-nearest-neighbour oracle result per
mesh vertex (`none` when `knnSearch` returns zero results, `some e` with the
Euclidean distance from the vertex to the nearest ground-truth point
otherwise). -/
structure MeshSubmap where
  label : PanopticLabel
  change_state : ChangeState
  vertexErrors : List (Option ℚ)
deriving DecidableEq

/-- The accumulator of `computeMeshError` (lines 329-331). -/
structure MeshStats where
  inliers : ℕ
  outliers : ℕ
  errors : List ℚ
deriving DecidableEq

/-- Per-vertex body of `computeMeshError` (lines 356-372): vertices with zero
k-nearest-neighbour results are skipped, the rest contribute their error and
are classified against the stored `request_.inlier_distance` (line 367). -/
def meshVertexStep (stored : EvaluationRequest) (s : MeshStats)
    (e : Option ℚ) : MeshStats :=
  match e with
  | none => s
  | some error =>
      let s1 := { s with errors := s.errors ++ [error] }
      if error ≤ stored.inlier_distance then { s1 with inliers := s1.inliers + 1 }
      else { s1 with outliers := s1.outliers + 1 }

/-- `MapEvaluator::computeMeshError` (lines 317-403, progress bar and summary
formatting aside): submaps labelled free-space or whose change state is
absent/unobserved are skipped unless `request.is_single_tsdf` is set
(lines 335-345); all remaining vertices are folded with `meshVertexStep`. -/
def computeMeshError (request stored : EvaluationRequest)
    (submaps : List MeshSubmap) : MeshStats :=
  submaps.foldl (fun s sm =>
    if request.is_single_tsdf = false ∧
        (sm.label = PanopticLabel.kFreeSpace ∨ sm.change_state = ChangeState.kAbsent ∨
          sm.change_state = ChangeState.kUnobserved) then s
    else sm.vertexErrors.foldl (meshVertexStep stored) s) ⟨0, 0, []⟩

/-- The distance lookup of the reconstruction pass (lines 257-265) depends on
the argument request only through `is_single_tsdf`; the oracle maps that flag
to the list of per-point lookup results. -/
def computeReconstructionErrorFromMap (request stored : EvaluationRequest)
    (oracle : Bool → List (Option ℚ)) : ReconstructionStats :=
  computeReconstructionError request stored (oracle request.is_single_tsdf)

/-- C9: the inlier and outlier counts of both error passes are insensitive to
the `inlier_distance` field of the request argument: two argument requests
that agree on every other field produce identical counts (and identical full
results), because lines 277 and 367 read the stored `request_`, not the
argument. -/
theorem inlier_distance_argument_insensitivity :
    ∀ (m i₁ i₂ : ℚ) (ig single : Bool) (stored : EvaluationRequest)
      (oracle : Bool → List (Option ℚ)) (submaps : List MeshSubmap),
      computeReconstructionErrorFromMap ⟨m, i₁, ig, single⟩ stored oracle =
        computeReconstructionErrorFromMap ⟨m, i₂, ig, single⟩ stored oracle ∧
      (computeReconstructionErrorFromMap ⟨m, i₁, ig, single⟩ stored oracle).inliers =
        (computeReconstructionErrorFromMap ⟨m, i₂, ig, single⟩ stored oracle).inliers ∧
      (computeMeshError ⟨m, i₁, ig, single⟩ stored submaps).inliers =
        (computeMeshError ⟨m, i₂, ig, single⟩ stored submaps).inliers ∧
      (computeMeshError ⟨m, i₁, ig, single⟩ stored submaps).outliers =
        (computeMeshError ⟨m, i₂, ig, single⟩ stored submaps).outliers :=
  fun _ _ _ _ _ _ _ _ => ⟨rfl, rfl, rfl, rfl⟩

/-- The reported mean of an error sample set: the accumulated sum, divided by
the sample count only when the set is nonempty (map_evaluator.cpp lines
293-302 in `computeReconstructionError`; lines 382-391 are the identical code
in `computeMeshError`). -/
noncomputable def reportedMean (xs : List ℝ) : ℝ :=
  if xs.isEmpty then xs.sum else xs.sum / xs.length

/-- The reported RMSE: the accumulated sum of squares, divided by the count
and square-rooted only when the set is nonempty (same line ranges as
`reportedMean`). -/
noncomputable def reportedRmse (xs : List ℝ) : ℝ :=
  if xs.isEmpty then (xs.map fun v => v ^ 2).sum
  else Real.sqrt ((xs.map fun v => v ^ 2).sum / xs.length)

/-- The reported standard deviation: the accumulated sum of squared
deviations from the reported mean, divided by `n - 1` and square-rooted only
when the sample count exceeds 2 (lines 303-309 in
`computeReconstructionError`; lines 392-398 are the identical code in
`computeMeshError`). -/
noncomputable def reportedStddev (xs : List ℝ) : ℝ :=
  let m := reportedMean xs
  let s := (xs.map fun v => (v - m) ^ 2).sum
  if 2 < xs.length then Real.sqrt (s / ((xs.length - 1 : ℕ) : ℝ)) else s

/-- Counterexample to C3: on the two-element sample set `[0, 2]` the reported
standard deviation is the raw sum of squared deviations from the mean,
`(0 - 1)^2 + (2 - 1)^2 = 2`, not `0` as the claim states. -/
theorem reported_stddev_small_sample_counterexample :
    reportedStddev [0, 2] = 2 ∧ (2 : ℝ) ≠ 0 := by
  constructor
  · norm_num [reportedStddev, reportedMean]
  · norm_num

/-- C3 (amended): mean and RMSE are 0 on the empty sample set; for more than
2 samples the reported stddev uses the sample `n - 1` denominator; for at
most 2 samples the reported value is the un-normalized sum of squared
deviations from the mean, which is 0 for empty and singleton sets but in
general not for two-element sets.  Both passes aggregate with this identical
code. -/
theorem reported_statistics_amended :
    ∀ xs : List ℝ,
      (xs = [] → reportedMean xs = 0 ∧ reportedRmse xs = 0 ∧ reportedStddev xs = 0) ∧
      (2 < xs.length →
        reportedStddev xs =
          Real.sqrt ((xs.map fun v => (v - reportedMean xs) ^ 2).sum /
            ((xs.length - 1 : ℕ) : ℝ))) ∧
      (xs.length ≤ 2 →
        reportedStddev xs = (xs.map fun v => (v - reportedMean xs) ^ 2).sum) ∧
      (∀ a : ℝ, reportedStddev [a] = 0) := by
  intro xs
  refine ⟨?_, ?_, ?_, ?_⟩
  · rintro rfl
    norm_num [reportedMean, reportedRmse, reportedStddev]
  · intro h
    rw [reportedStddev, if_pos h]
  · intro h
    rw [reportedStddev, if_neg (by omega)]
  · intro a
    norm_num [reportedStddev, reportedMean]

/-- Witness for C3 (amended): on the empty sample set the reported mean,
RMSE and stddev all equal 0. -/
theorem reported_statistics_amended_witness :
    reportedMean [] = 0 ∧ reportedRmse [] = 0 ∧ reportedStddev [] = 0 :=
  (reported_statistics_amended []).1 rfl

/-- Red channel of the error-to-colour mapping (map_evaluator.cpp line 507 in
the mesh-distance branch; line 605 is the identical formula in the per-voxel
branch). -/
noncomputable def colorR (frac : ℝ) : ℝ := min ((frac - 0.5) * 2 + 1) 1 * 255

/-- Green channel of the error-to-colour mapping (lines 508-511 and
606-609): `190 + 130 * frac` for `frac ≤ 0.5`, `(1 - frac) * 2 * 255`
otherwise. -/
noncomputable def colorG (frac : ℝ) : ℝ :=
  if frac ≤ 0.5 then 190 + 130 * frac else (1 - frac) * 2 * 255

/-- Blue channel of the error-to-colour mapping: always 0 (lines 512 and
610). -/
def colorB (_frac : ℝ) : ℝ := 0

/-- The normalized error fraction fed to the colour mapping (lines 505-506,
597-598 and 600-602): `min(errorValue, maximum_distance) /
maximum_distance`. -/
noncomputable def errorFrac (errorValue maximum_distance : ℝ) : ℝ :=
  min errorValue maximum_distance / maximum_distance

/-- Counterexample to C6: the green channel is not monotonic in `frac` - it
rises from 190 at `frac = 0` to 222.5 at `frac = 1/4` and falls back to
127.5 at `frac = 3/4`, so the error-to-colour mapping is neither monotone
nondecreasing nor monotone nonincreasing in `frac`. -/
theorem color_green_not_monotone :
    colorG 0 < colorG (1 / 4) ∧ colorG (3 / 4) < colorG (1 / 4) ∧
      ¬ Monotone colorG ∧ ¬ Antitone colorG := by
  have h0 : colorG 0 = 190 := by norm_num [colorG]
  have h1 : colorG (1 / 4) = 190 + 130 / 4 := by norm_num [colorG]
  have h2 : colorG (3 / 4) = (1 / 4) * 2 * 255 := by norm_num [colorG]
  refine ⟨by rw [h0, h1]; norm_num, by rw [h1, h2]; norm_num, ?_, ?_⟩
  · intro hm
    have := hm (by norm_num : (1 / 4 : ℝ) ≤ 3 / 4)
    rw [h1, h2] at this
    norm_num at this
  · intro ha
    have := ha (by norm_num : (0 : ℝ) ≤ 1 / 4)
    rw [h0, h1] at this
    norm_num at this

/-- C6 (amended): the error-to-colour mapping is a deterministic function of
`frac` alone with the channel formulas of the code; it is continuous;
`colorFor(0) = (0, 190, 0)` is a pure green-family value and
`colorFor(1) = (255, 0, 0)` a pure red-family value; the red channel is
monotone nondecreasing and red minus green is strictly increasing (the hue
moves monotonically from green to red), though the green channel itself is
not monotone; and `frac = min(errorValue, maximum_distance) /
maximum_distance` always lies in `[0, 1]` for a nonnegative error value and
a positive maximum distance. -/
theorem color_mapping_amended :
    Continuous colorR ∧ Continuous colorG ∧ Continuous colorB ∧
    Monotone colorR ∧ StrictMono (fun frac => colorR frac - colorG frac) ∧
    colorR 0 = 0 ∧ colorG 0 = 190 ∧ colorB 0 = 0 ∧
    colorR 1 = 255 ∧ colorG 1 = 0 ∧ colorB 1 = 0 ∧
    (∀ errorValue maximum_distance : ℝ, 0 ≤ errorValue → 0 < maximum_distance →
      errorFrac errorValue maximum_distance ∈ Set.Icc (0 : ℝ) 1) := by
  have hR : ∀ f : ℝ, f ≤ 0.5 → colorR f = 2 * f * 255 := by
    intro f hf
    rw [colorR, min_eq_left (by linarith)]
    ring
  have hRhi : ∀ f : ℝ, 0.5 ≤ f → colorR f = 255 := by
    intro f hf
    rw [colorR, min_eq_right (by linarith)]
    ring
  refine ⟨?_, ?_, ?_, ?_, ?_, ?_, ?_, ?_, ?_, ?_, ?_, ?_⟩
  · exact (Continuous.min (by continuity) continuous_const).mul continuous_const
  · refine Continuous.if_le (by continuity) (by continuity)
      continuous_id continuous_const ?_
    intro x hx
    rw [hx]
    norm_num
  · exact continuous_const
  · intro a b hab
    have : min ((a - 0.5) * 2 + 1) 1 ≤ min ((b - 0.5) * 2 + 1) 1 :=
      min_le_min (by linarith) le_rfl
    have h255 : (0 : ℝ) ≤ 255 := by norm_num
    exact mul_le_mul_of_nonneg_right this h255
  · intro a b hab
    simp only
    rcases le_or_lt a 0.5 with ha | ha <;> rcases le_or_lt b 0.5 with hb | hb
    · rw [hR a ha, hR b hb, colorG, if_pos ha, colorG, if_pos hb]
      linarith
    · rw [hR a ha, hRhi b hb.le, colorG, if_pos ha, colorG, if_neg (not_le.mpr hb)]
      nlinarith
    · exact absurd (hab.trans_le hb) (not_lt.mpr ha.le)
    · rw [hRhi a ha.le, hRhi b hb.le, colorG, if_neg (not_le.mpr ha),
        colorG, if_neg (not_le.mpr hb)]
      linarith
  · norm_num [colorR]
  · norm_num [colorG]
  · norm_num [colorB]
  · norm_num [colorR]
  · norm_num [colorG]
  · norm_num [colorB]
  · intro e m he hm
    constructor
    · exact div_nonneg (le_min he hm.le) hm.le
    · exact div_le_one_of_le₀ (min_le_right e m) hm.le

/-- Witness for C6 (amended): the fraction for error value 1 and maximum
distance 2 lies in `[0, 1]`. -/
theorem color_mapping_amended_witness :
    errorFrac 1 2 ∈ Set.Icc (0 : ℝ) 1 :=
  color_mapping_amended.2.2.2.2.2.2.2.2.2.2.2 1 2 (by norm_num) (by norm_num)

/-- The progress-display interval of `computeReconstructionError` (line 239):
the integer quotient of the ground-truth point count by 100. -/
def progressInterval (n : ℕ) : ℕ := n / 100

/-- One evaluation of the progress guard `count % interval == 0` (lines
285-287) for a cloud of `n` points.  A zero divisor (C++ undefined
behaviour) is modelled as `none`; otherwise the counts at which the bar is
displayed are collected. -/
def progressStep (n : ℕ) (acc : Option (List ℕ)) (count : ℕ) : Option (List ℕ) :=
  match acc with
  | none => none
  | some l =>
      if progressInterval n = 0 then none
      else if count % progressInterval n = 0 then some (l ++ [count]) else some l

/-- The progress displays produced over the whole loop (lines 250-289): the
guard is evaluated once for every `count` in `[0, n)`. -/
def progressDisplays (n : ℕ) : Option (List ℕ) :=
  (List.range n).foldl (progressStep n) (some [])

/-- Folding `progressStep` from an already-failed accumulator stays failed. -/
lemma progressStep_foldl_none (n : ℕ) (l : List ℕ) :
    l.foldl (progressStep n) none = none := by
  induction l with
  | nil => rfl
  | cons c rest ih => simpa [progressStep] using ih

/-- C10: the progress-display divisor `interval = n / 100` is nonzero exactly
when the ground-truth cloud has at least 100 points, and for every non-empty
cloud with fewer than 100 points the guard divides by zero already on the
first loop iteration, failing the whole pass. -/
theorem progress_interval_modulo_zero :
    ∀ n : ℕ,
      (progressInterval n ≠ 0 ↔ 100 ≤ n) ∧
      (0 < n → n < 100 →
        progressStep n (some []) 0 = none ∧ progressDisplays n = none) := by
  intro n
  have hiff : progressInterval n = 0 ↔ n < 100 :=
    Nat.div_eq_zero_iff (by norm_num)
  constructor
  · constructor
    · intro h
      exact not_lt.mp fun hlt => h (hiff.mpr hlt)
    · intro h hz
      exact absurd (hiff.mp hz) (not_lt.mpr h)
  · intro hpos hlt
    have hz : progressInterval n = 0 := hiff.mpr hlt
    constructor
    · simp [progressStep, hz]
    · obtain ⟨m, rfl⟩ : ∃ m, n = m + 1 := ⟨n - 1, by omega⟩
      rw [progressDisplays, List.range_succ_eq_map, List.foldl_cons]
      rw [show progressStep (m + 1) (some []) 0 = none by simp [progressStep, hz]]
      exact progressStep_foldl_none _ _

/-- Witness for C10: a 50-point cloud has a zero divisor and fails on the
first iteration. -/
theorem progress_interval_modulo_zero_witness :
    progressStep 50 (some []) 0 = none ∧ progressDisplays 50 = none :=
  (progress_interval_modulo_zero 50).2 (by norm_num) (by norm_num)

/-- Euclidean norm of a 3-vector, as used through `Eigen::normalized` and
`.norm()` in the evaluator. -/
noncomputable def norm3 (x y z : ℝ) : ℝ := Real.sqrt (x ^ 2 + y ^ 2 + z ^ 2)

/-- The coverage grid cell size `MapEvaluator::kCoverageGridVoxelSize`
(map_evaluator.h line 954). -/
noncomputable def kCoverageGridVoxelSize : ℝ := 0.05

/-- `get_voxel_centroid` (map_evaluator.cpp lines 26-32): the synthetic
representative point of an empty coverage cell.  `t` is the *normalized
integer index vector* `voxel_coordinates.cast<float>().normalized()` scaled
by half the voxel size, added to the cell corner
`voxel_coordinates * voxel_size`. -/
noncomputable def get_voxel_centroid (v : ℤ × ℤ × ℤ) (voxel_size : ℝ) :
    ℝ × ℝ × ℝ :=
  let x : ℝ := (v.1 : ℝ)
  let y : ℝ := (v.2.1 : ℝ)
  let z : ℝ := (v.2.2 : ℝ)
  let n := norm3 x y z
  (x * voxel_size + x / n * (voxel_size / 2),
   y * voxel_size + y / n * (voxel_size / 2),
   z * voxel_size + z / n * (voxel_size / 2))

/-- The empty-cell representative point as the spec describes it: the cell
corner offset by half a cell size along the unit vector pointing from the
cell corner toward the cell center, which is `(1,1,1) / sqrt 3` for every
cell.  This definition follows the spec wording and is compared against
`get_voxel_centroid`, the embedding of the code. -/
noncomputable def specVoxelCentroid (v : ℤ × ℤ × ℤ) (voxel_size : ℝ) :
    ℝ × ℝ × ℝ :=
  ((v.1 : ℝ) * voxel_size + voxel_size / 2 * (1 / Real.sqrt 3),
   (v.2.1 : ℝ) * voxel_size + voxel_size / 2 * (1 / Real.sqrt 3),
   (v.2.2 : ℝ) * voxel_size + voxel_size / 2 * (1 / Real.sqrt 3))

/-- Scaling property of `norm3`. -/
lemma norm3_scale (c x y z : ℝ) :
    norm3 (c * x) (c * y) (c * z) = |c| * norm3 x y z := by
  rw [norm3, norm3,
    show (c * x) ^ 2 + (c * y) ^ 2 + (c * z) ^ 2 =
      c ^ 2 * (x ^ 2 + y ^ 2 + z ^ 2) by ring,
    Real.sqrt_mul (sq_nonneg c), Real.sqrt_sq_eq_abs]

/-- `norm3` of a nonzero integer vector is positive. -/
lemma norm3_int_pos (v : ℤ × ℤ × ℤ) (hv : v ≠ (0, 0, 0)) :
    0 < norm3 (v.1 : ℝ) (v.2.1 : ℝ) (v.2.2 : ℝ) := by
  obtain ⟨a, b, c⟩ := v
  rw [norm3]
  apply Real.sqrt_pos.mpr
  have h : a ≠ 0 ∨ b ≠ 0 ∨ c ≠ 0 := by
    by_contra hc
    push_neg at hc
    exact hv (by simp [hc.1, hc.2.1, hc.2.2, Prod.ext_iff])
  rcases h with h | h | h
  · have ha : ((a : ℝ)) ≠ 0 := Int.cast_ne_zero.mpr h
    have : (0 : ℝ) < (a : ℝ) ^ 2 := by positivity
    nlinarith [sq_nonneg ((b : ℝ)), sq_nonneg ((c : ℝ))]
  · have hb : ((b : ℝ)) ≠ 0 := Int.cast_ne_zero.mpr h
    have : (0 : ℝ) < (b : ℝ) ^ 2 := by positivity
    nlinarith [sq_nonneg ((a : ℝ)), sq_nonneg ((c : ℝ))]
  · have hc : ((c : ℝ)) ≠ 0 := Int.cast_ne_zero.mpr h
    have : (0 : ℝ) < (c : ℝ) ^ 2 := by positivity
    nlinarith [sq_nonneg ((a : ℝ)), sq_nonneg ((b : ℝ))]

/-- Counterexample to C5: for the cell `(1, 0, 0)` the code's synthetic point
is the corner shifted along the x axis only, `(0.075, 0, 0)`, while the
spec's corner-to-center rule would shift all three coordinates by
`0.025 / sqrt 3`; the two points differ. -/
theorem voxel_centroid_direction_counterexample :
    get_voxel_centroid (1, 0, 0) kCoverageGridVoxelSize ≠
      specVoxelCentroid (1, 0, 0) kCoverageGridVoxelSize ∧
    get_voxel_centroid (1, 0, 0) kCoverageGridVoxelSize = (3 / 40, 0, 0) := by
  have hs3 : (0 : ℝ) < Real.sqrt 3 := Real.sqrt_pos.mpr (by norm_num)
  have hn : norm3 ((1 : ℤ) : ℝ) ((0 : ℤ) : ℝ) ((0 : ℤ) : ℝ) = 1 := by
    rw [norm3]
    norm_num
  have hget : get_voxel_centroid (1, 0, 0) kCoverageGridVoxelSize = (3 / 40, 0, 0) := by
    rw [get_voxel_centroid]
    simp only [hn]
    norm_num [kCoverageGridVoxelSize, Prod.ext_iff]
  refine ⟨?_, hget⟩
  intro h
  have h2 := congrArg (fun p : ℝ × ℝ × ℝ => p.2.1) h
  rw [hget] at h2
  simp only [specVoxelCentroid] at h2
  have hpos : (0 : ℝ) < kCoverageGridVoxelSize / 2 * (1 / Real.sqrt 3) := by
    apply mul_pos
    · norm_num [kCoverageGridVoxelSize]
    · exact div_pos one_pos hs3
  rw [show ((0 : ℤ) : ℝ) * kCoverageGridVoxelSize = 0 by norm_num] at h2
  simp only [zero_add] at h2
  exact absurd h2.symm (ne_of_gt hpos)

/-- Inclusive integer range `[lo, hi]`, the index set of one coverage-loop
dimension (map_evaluator.cpp lines 809-811). -/
def intRange (lo hi : ℤ) : List ℤ :=
  (List.range (hi - lo + 1).toNat).map fun t => lo + (t : ℤ)

/-- The environment of `MapEvaluator::exportCoveragePointcloud` (lines
801-830): the voxel-grid bounding box, the leaf-layout lookup
(`getCentroidIndexAt` composed with the filtered-cloud access, `none` for
`-1`, i.e. an empty cell), and the planning interface's `isObserved`
predicate. -/
structure CoverageSetup where
  min_box : ℤ × ℤ × ℤ
  max_box : ℤ × ℤ × ℤ
  centroidAt : ℤ × ℤ × ℤ → Option (ℝ × ℝ × ℝ)
  isObserved : ℝ × ℝ × ℝ → Bool

/-- The grid cells visited by the triple loop of lines 809-811, in loop
order. -/
def coverageCells (c : CoverageSetup) : List (ℤ × ℤ × ℤ) :=
  (intRange c.min_box.1 c.max_box.1).flatMap fun i =>
    (intRange c.min_box.2.1 c.max_box.2.1).flatMap fun j =>
      (intRange c.min_box.2.2 c.max_box.2.2).map fun k => (i, j, k)

/-- The representative point of one grid cell (lines 812-822): the stored
centroid for an occupied cell, the synthetic `get_voxel_centroid` point for
an empty one. -/
noncomputable def coveragePoint (c : CoverageSetup) (cell : ℤ × ℤ × ℤ) :
    ℝ × ℝ × ℝ :=
  match c.centroidAt cell with
  | some p => p
  | none => get_voxel_centroid cell kCoverageGridVoxelSize

/-- `MapEvaluator::exportCoveragePointcloud` (lines 805-830): the coverage
cloud collects the representative point of every in-box cell whose
representative point the map marks as observed. -/
noncomputable def exportCoveragePointcloud (c : CoverageSetup) :
    List (ℝ × ℝ × ℝ) :=
  (coverageCells c).filterMap fun cell =>
    if c.isObserved (coveragePoint c cell) then some (coveragePoint c cell)
    else none

/-- C5 (amended): for an empty in-box cell with nonzero index vector, the
synthetic representative point is the cell corner
`(i * s, j * s, k * s)` offset by a positive multiple of the *index vector*
`(i, j, k)` itself - i.e. by half a cell size along the unit vector pointing
from the grid origin toward the cell corner, not toward the cell center -
the offset having Euclidean length exactly `s / 2`; and this point is
appended to the coverage cloud exactly when the map marks it as observed. -/
theorem coverage_empty_cell_amended (c : CoverageSetup) (cell : ℤ × ℤ × ℤ)
    (hmem : cell ∈ coverageCells c) (hcent : c.centroidAt cell = none)
    (hne : cell ≠ (0, 0, 0)) :
    norm3 ((get_voxel_centroid cell kCoverageGridVoxelSize).1 -
        (cell.1 : ℝ) * kCoverageGridVoxelSize)
      ((get_voxel_centroid cell kCoverageGridVoxelSize).2.1 -
        (cell.2.1 : ℝ) * kCoverageGridVoxelSize)
      ((get_voxel_centroid cell kCoverageGridVoxelSize).2.2 -
        (cell.2.2 : ℝ) * kCoverageGridVoxelSize) = kCoverageGridVoxelSize / 2 ∧
    (∃ t : ℝ, 0 < t ∧
      (get_voxel_centroid cell kCoverageGridVoxelSize).1 -
        (cell.1 : ℝ) * kCoverageGridVoxelSize = t * (cell.1 : ℝ) ∧
      (get_voxel_centroid cell kCoverageGridVoxelSize).2.1 -
        (cell.2.1 : ℝ) * kCoverageGridVoxelSize = t * (cell.2.1 : ℝ) ∧
      (get_voxel_centroid cell kCoverageGridVoxelSize).2.2 -
        (cell.2.2 : ℝ) * kCoverageGridVoxelSize = t * (cell.2.2 : ℝ)) ∧
    (get_voxel_centroid cell kCoverageGridVoxelSize ∈ exportCoveragePointcloud c ↔
      c.isObserved (get_voxel_centroid cell kCoverageGridVoxelSize) = true) := by
  have hk : (0 : ℝ) < kCoverageGridVoxelSize := by norm_num [kCoverageGridVoxelSize]
  have hn : 0 < norm3 (cell.1 : ℝ) (cell.2.1 : ℝ) (cell.2.2 : ℝ) :=
    norm3_int_pos cell hne
  have hoff : ∀ a : ℝ,
      a * kCoverageGridVoxelSize +
        a / norm3 (cell.1 : ℝ) (cell.2.1 : ℝ) (cell.2.2 : ℝ) *
          (kCoverageGridVoxelSize / 2) - a * kCoverageGridVoxelSize =
      kCoverageGridVoxelSize / 2 / norm3 (cell.1 : ℝ) (cell.2.1 : ℝ) (cell.2.2 : ℝ) * a := by
    intro a
    field_simp
    ring
  refine ⟨?_, ?_, ?_⟩
  · rw [get_voxel_centroid]
    simp only
    rw [hoff, hoff, hoff, norm3_scale,
      abs_of_pos (div_pos (by linarith) hn)]
    field_simp
    ring
  · refine ⟨kCoverageGridVoxelSize / 2 /
      norm3 (cell.1 : ℝ) (cell.2.1 : ℝ) (cell.2.2 : ℝ),
      div_pos (by linarith) hn, ?_, ?_, ?_⟩
    · rw [get_voxel_centroid]; simp only; rw [hoff]
    · rw [get_voxel_centroid]; simp only; rw [hoff]
    · rw [get_voxel_centroid]; simp only; rw [hoff]
  · have hpoint : coveragePoint c cell = get_voxel_centroid cell kCoverageGridVoxelSize := by
      rw [coveragePoint, hcent]
    constructor
    · intro hp
      obtain ⟨cell2, _, hif⟩ := List.mem_filterMap.mp hp
      by_cases hobs : c.isObserved (coveragePoint c cell2) = true
      · rw [if_pos hobs] at hif
        rw [← Option.some.inj hif]
        exact hobs
      · rw [if_neg hobs] at hif
        exact absurd hif (by simp)
    · intro hobs
      apply List.mem_filterMap.mpr
      refine ⟨cell, hmem, ?_⟩
      rw [hpoint, if_pos hobs]

/-- Witness for C5 (amended): a one-cell grid whose single cell `(1, 0, 0)`
is empty and everywhere observed; its synthetic point sits `s / 2` from the
corner along the x axis and is in the coverage cloud. -/
theorem coverage_empty_cell_amended_witness :
    norm3 ((get_voxel_centroid (1, 0, 0) kCoverageGridVoxelSize).1 -
        ((1 : ℤ) : ℝ) * kCoverageGridVoxelSize)
      ((get_voxel_centroid (1, 0, 0) kCoverageGridVoxelSize).2.1 -
        ((0 : ℤ) : ℝ) * kCoverageGridVoxelSize)
      ((get_voxel_centroid (1, 0, 0) kCoverageGridVoxelSize).2.2 -
        ((0 : ℤ) : ℝ) * kCoverageGridVoxelSize) = kCoverageGridVoxelSize / 2 ∧
    (∃ t : ℝ, 0 < t ∧
      (get_voxel_centroid (1, 0, 0) kCoverageGridVoxelSize).1 -
        ((1 : ℤ) : ℝ) * kCoverageGridVoxelSize = t * ((1 : ℤ) : ℝ) ∧
      (get_voxel_centroid (1, 0, 0) kCoverageGridVoxelSize).2.1 -
        ((0 : ℤ) : ℝ) * kCoverageGridVoxelSize = t * ((0 : ℤ) : ℝ) ∧
      (get_voxel_centroid (1, 0, 0) kCoverageGridVoxelSize).2.2 -
        ((0 : ℤ) : ℝ) * kCoverageGridVoxelSize = t * ((0 : ℤ) : ℝ)) ∧
    (get_voxel_centroid (1, 0, 0) kCoverageGridVoxelSize ∈
        exportCoveragePointcloud
          ⟨(1, 0, 0), (1, 0, 0), fun _ => none, fun _ => true⟩ ↔
      (⟨(1, 0, 0), (1, 0, 0), fun _ => none, fun _ => true⟩ :
          CoverageSetup).isObserved
        (get_voxel_centroid (1, 0, 0) kCoverageGridVoxelSize) = true) :=
  coverage_empty_cell_amended
    ⟨(1, 0, 0), (1, 0, 0), fun _ => none, fun _ => true⟩ (1, 0, 0)
    (by simp [coverageCells, intRange]) rfl (by decide)

/-- Outcome of one evaluator entry point: a clean success, a logged error
with `false` returned to the caller, or a `LOG(FATAL)` that terminates the
process. -/
inductive RunOutcome
  | success
  | failure
  | fatal
deriving DecidableEq

/-- File-extension dispatch of the map loader (lines 148-176): `.panmap`,
`.vxblx`, or anything else. -/
inductive MapFileKind
  | panmap
  | vxblx
  | unknown
deriving DecidableEq

/-- The branch conditions of `MapEvaluator::evaluate` (lines 118-199):
request validity, the two flags that trigger ground-truth loading, emptiness
and load success of the two input files, whether a cloud or map is already
cached from an earlier run, and whether the output CSV can be opened. -/
structure EvaluateInputs where
  request_valid : Bool
  evaluate_flag : Bool
  compute_coloring : Bool
  gt_file_empty : Bool
  gt_load_ok : Bool
  gt_already_loaded : Bool
  map_file_empty : Bool
  map_file_kind : MapFileKind
  map_load_ok : Bool
  map_already_loaded : Bool
  output_open_ok : Bool
deriving DecidableEq

/-- Whether `gt_cloud_ptr_` is non-null after the ground-truth section
(lines 126-143): a nonempty file path replaces the cloud by this run's load,
an empty path leaves any cached cloud. -/
def gtLoadedAfter (i : EvaluateInputs) : Bool :=
  if i.gt_file_empty then i.gt_already_loaded else i.gt_load_ok

/-- Whether a map is available after the map section (lines 146-177): a
`.vxblx` path sets `use_voxblox_` unconditionally (line 170 ignores the load
result), a `.panmap` path requires the load to succeed, an empty path relies
on a previously loaded map. -/
def mapLoadedAfter (i : EvaluateInputs) : Bool :=
  if i.map_file_empty then i.map_already_loaded
  else
    match i.map_file_kind with
    | MapFileKind.panmap => i.map_load_ok
    | MapFileKind.vxblx => true
    | MapFileKind.unknown => false

/-- The early-return structure of `MapEvaluator::evaluate` (lines 118-199),
with the computation itself abstracted to `success`. -/
def evaluateOutcome (i : EvaluateInputs) : RunOutcome :=
  if i.request_valid = false then RunOutcome.failure
  else if (i.evaluate_flag || i.compute_coloring) = true ∧ i.gt_file_empty = false ∧
      i.gt_load_ok = false then RunOutcome.failure
  else if (i.evaluate_flag || i.compute_coloring) = true ∧ gtLoadedAfter i = false then
    RunOutcome.failure
  else if i.map_file_empty = false ∧ i.map_file_kind = MapFileKind.panmap ∧
      i.map_load_ok = false then RunOutcome.failure
  else if i.map_file_empty = false ∧ i.map_file_kind = MapFileKind.unknown then
    RunOutcome.failure
  else if mapLoadedAfter i = false then RunOutcome.failure
  else if i.evaluate_flag = true ∧ i.output_open_ok = false then RunOutcome.failure
  else RunOutcome.success

/-- `MapEvaluator::exportCoveragePointcloud` on entry (lines 773-783): with
no cached ground-truth cloud it loads the configured file, and on load
failure it invokes `LOG(FATAL)`, which terminates the process. -/
def exportCoverageOutcome (gt_already_loaded gt_load_ok : Bool) : RunOutcome :=
  if gt_already_loaded then RunOutcome.success
  else if gt_load_ok then RunOutcome.success
  else RunOutcome.fatal

/-- Counterexample to C7: a ground-truth load failure during the coverage
point cloud export does not return failure to the caller - it is fatal
(`LOG(FATAL)`, line 780), terminating the process. -/
theorem coverage_load_failure_is_fatal :
    exportCoverageOutcome false false = RunOutcome.fatal ∧
      RunOutcome.fatal ≠ RunOutcome.failure := by
  exact ⟨rfl, by decide⟩

/-- C7 (amended): `MapEvaluator::evaluate` never terminates the process - a
ground-truth load failure and a map load failure both abort the run and
return failure to the caller - but a ground-truth load failure inside
`exportCoveragePointcloud` is a `LOG(FATAL)` that terminates the process
instead of returning failure. -/
theorem load_failure_outcomes_amended :
    (∀ i : EvaluateInputs, evaluateOutcome i ≠ RunOutcome.fatal) ∧
    (∀ i : EvaluateInputs,
      i.request_valid = true → (i.evaluate_flag || i.compute_coloring) = true →
      i.gt_file_empty = false → i.gt_load_ok = false →
      evaluateOutcome i = RunOutcome.failure) ∧
    (∀ i : EvaluateInputs,
      i.request_valid = true → i.map_file_empty = false →
      i.map_file_kind = MapFileKind.panmap → i.map_load_ok = false →
      evaluateOutcome i = RunOutcome.failure) ∧
    exportCoverageOutcome false false = RunOutcome.fatal := by
  refine ⟨?_, ?_, ?_, rfl⟩
  · intro i
    rw [evaluateOutcome]
    split_ifs <;> decide
  · intro i h1 h2 h3 h4
    rw [evaluateOutcome]
    simp [h1, h2, h3, h4]
  · intro i h1 h2 h3 h4
    rw [evaluateOutcome]
    split_ifs with c1 c2 c3 c4 c5 c6 c7 <;> try rfl
    exact absurd ⟨h2, h3, h4⟩ c4

/-- Witness for C7 (amended): a valid request whose ground-truth file fails
to load returns failure, and one whose panoptic map file fails to load
returns failure. -/
theorem load_failure_outcomes_amended_witness :
    evaluateOutcome ⟨true, true, false, false, false, false, false,
        MapFileKind.panmap, true, false, true⟩ = RunOutcome.failure ∧
    evaluateOutcome ⟨true, true, false, false, true, false, false,
        MapFileKind.panmap, false, false, true⟩ = RunOutcome.failure :=
  ⟨load_failure_outcomes_amended.2.1
      ⟨true, true, false, false, false, false, false,
        MapFileKind.panmap, true, false, true⟩ rfl rfl rfl rfl,
    load_failure_outcomes_amended.2.2.1
      ⟨true, true, false, false, true, false, false,
        MapFileKind.panmap, false, false, true⟩ rfl rfl rfl rfl⟩

/-- The instance-to-class table of `exportLabeledPointcloud` (lines 739-749):
CSV rows `(InstanceID, ClassID)` are inserted into an `unordered_map` keyed
by instance, skipping rows where either value stayed `-1`; a later row for
the same instance overwrites an earlier one, so a lookup returns the last
valid row with the given key. -/
def labelMapLookup (rows : List (ℤ × ℤ)) (key : ℤ) : Option (ℤ × ℤ) :=
  ((rows.filter fun r => decide (r.1 ≠ -1) && decide (r.2 ≠ -1)).reverse).find?
    fun r => decide (r.1 = key)

/-- The per-point remapping of lines 752-762: a point whose (uint32) label is
found in the table as an instance key receives `classID * 1000 + instanceID`
(an `int` stored into the `uint32` label), otherwise its label is multiplied
by 1000 in `uint32` arithmetic. -/
def remapLabel (rows : List (ℤ × ℤ)) (label : ℕ) : ℕ :=
  match labelMapLookup rows (label : ℤ) with
  | some (inst, cls) => ((cls * 1000 + inst) % 2 ^ 32).toNat
  | none => label * 1000 % 2 ^ 32

/-- The whole-cloud remapping loop of lines 752-762. -/
def remapPointcloud (rows : List (ℤ × ℤ)) (labels : List ℕ) : List ℕ :=
  labels.map (remapLabel rows)

/-- C8: remapping a labeled point cloud through an instance-to-class table
gives every point whose label appears as an InstanceID key the label
`classID * 1000 + instanceID` exactly (for in-range table entries:
nonnegative values with `classID * 1000 + instanceID` below `2^31`, so the
`int` arithmetic of line 757 neither overflows nor wraps in the `uint32`
store), and every point whose label is absent from the table the label
`label * 1000` exactly (for labels at most 50000, which is every label the
exporter emits - line 719 skips larger ones - so the `uint32` product does
not wrap). -/
theorem labeled_pointcloud_remap (rows : List (ℤ × ℤ)) (label : ℕ) :
    (∀ inst cls : ℤ,
      labelMapLookup rows (label : ℤ) = some (inst, cls) →
      0 ≤ inst → 0 ≤ cls → cls * 1000 + inst < 2 ^ 31 →
      remapLabel rows label = (cls * 1000 + inst).toNat) ∧
    (labelMapLookup rows (label : ℤ) = none → label ≤ 50000 →
      remapLabel rows label = label * 1000) ∧
    (∀ labels : List ℕ, label ∈ labels →
      remapLabel rows label ∈ remapPointcloud rows labels) := by
  refine ⟨?_, ?_, ?_⟩
  · intro inst cls hfound hinst hcls hbound
    simp only [remapLabel, hfound]
    rw [Int.emod_eq_of_lt (by linarith) (lt_trans hbound (by norm_num))]
  · intro hnone hsmall
    rw [remapLabel, hnone]
    exact Nat.mod_eq_of_lt (by omega)
  · intro labels hmem
    exact List.mem_map_of_mem _ hmem

/-- Witness for C8: with the table `[(7, 3)]`, the mapped label 7 becomes
`3 * 1000 + 7 = 3007` and the unmapped label 9 becomes `9 * 1000 = 9000`. -/
theorem labeled_pointcloud_remap_witness :
    remapLabel [(7, 3)] 7 = (3 * 1000 + 7 : ℤ).toNat ∧
    remapLabel [(7, 3)] 9 = 9 * 1000 :=
  ⟨(labeled_pointcloud_remap [(7, 3)] 7).1 7 3 (by decide) (by decide) (by decide)
      (by decide),
    (labeled_pointcloud_remap [(7, 3)] 9).2.1 (by decide) (by decide)⟩
